import Mathlib

/-!
Verification of the Grounding DINO configuration schema
(`nvidia_tao_pytorch/cv/grounding_dino/config/model.py`) and of the subtask
dispatcher entrypoint (`entrypoint/grounding_dino.py`).

The schema attaches to every hyperparameter a self-describing field
descriptor: value, default value, numeric bounds, enumerated options, an
optional math condition, AutoML eligibility, and display metadata.  The
descriptors are embedded here field by field from the source; the generic
builder functions (`INT_FIELD`, `FLOAT_FIELD`, ...) and the consuming
validator live outside this fragment and are modelled from the spec where a
claim needs them.  Python floats in the source are decimal literals and are
embedded as exact rationals.
-/

/-- The kind tag of a field descriptor: determines the accepted value type. -/
inductive FieldKind where
  | bool
  | int
  | float
  | str
  | list
deriving DecidableEq, Repr

/-- A configuration value: the unset sentinel None, a bool, an int, a float
(embedded as an exact rational), a string, or a list of ints or strings. -/
inductive FieldValue where
  | vNone
  | vBool (b : Bool)
  | vInt (n : Int)
  | vFloat (q : Rat)
  | vStr (s : String)
  | vIntList (xs : List Int)
  | vStrList (xs : List String)
deriving DecidableEq, Repr

/-- A declared numeric bound: absent, a finite number, or the unbounded
sentinel that the source writes as the string "inf". -/
inductive NumBound where
  | unset
  | num (q : Rat)
  | inf
deriving DecidableEq, Repr

/-- One field descriptor of the configuration schema: the machine-readable
contract carried by each hyperparameter (spec section 3).  `valid_options`
keeps the source's comma-joined encoding; `automl_enabled` and `popular`
keep the source's string flags ("TRUE"/"FALSE", "yes"). -/
structure FieldDescriptor where
  kind : FieldKind
  value : FieldValue
  default_value : FieldValue
  description : String
  display_name : Option String
  display_unit : Option String
  valid_min : NumBound
  valid_max : NumBound
  valid_options : Option String
  math_cond : Option String
  automl_enabled : String
  popular : String
deriving DecidableEq, Repr

/-- Keyword arguments accepted by the BOOL_FIELD builder at its call sites in
the source. -/
structure BoolFieldArgs where
  value : Bool
  default_value : Option Bool := none
  description : String := ""
  display_name : Option String := none
deriving DecidableEq, Repr

/-- Modelled from the spec: the builder functions live in
`nvidia_tao_pytorch.config.types`, outside this fragment; per spec section
4.1 each builder is a pure constructor producing an immutable descriptor
from typed keyword parameters, with no side effects. -/
def BOOL_FIELD (a : BoolFieldArgs) : FieldDescriptor :=
  { kind := FieldKind.bool
    value := FieldValue.vBool a.value
    default_value :=
      match a.default_value with
      | some v => FieldValue.vBool v
      | none => FieldValue.vNone
    description := a.description
    display_name := a.display_name
    display_unit := none
    valid_min := NumBound.unset
    valid_max := NumBound.unset
    valid_options := none
    math_cond := none
    automl_enabled := ""
    popular := "" }

/-- Keyword arguments accepted by the INT_FIELD builder at its call sites in
the source. -/
structure IntFieldArgs where
  value : Int
  default_value : Option Int := none
  description : String := ""
  display_name : Option String := none
  display_unit : Option String := none
  valid_min : NumBound := NumBound.unset
  valid_max : NumBound := NumBound.unset
  automl_enabled : String := ""
  math_cond : Option String := none
  popular : String := ""
deriving DecidableEq, Repr

/-- Modelled from the spec: INT_FIELD, the pure descriptor builder for
integer fields (spec section 4.1); the descriptor records the given value
and contract unchanged. -/
def INT_FIELD (a : IntFieldArgs) : FieldDescriptor :=
  { kind := FieldKind.int
    value := FieldValue.vInt a.value
    default_value :=
      match a.default_value with
      | some v => FieldValue.vInt v
      | none => FieldValue.vNone
    description := a.description
    display_name := a.display_name
    display_unit := a.display_unit
    valid_min := a.valid_min
    valid_max := a.valid_max
    valid_options := none
    math_cond := a.math_cond
    automl_enabled := a.automl_enabled
    popular := a.popular }

/-- Keyword arguments accepted by the FLOAT_FIELD builder at its call sites
in the source. -/
structure FloatFieldArgs where
  value : Rat
  default_value : Option Rat := none
  description : String := ""
  display_name : Option String := none
  valid_min : NumBound := NumBound.unset
  valid_max : NumBound := NumBound.unset
  math_cond : Option String := none
  popular : String := ""
deriving DecidableEq, Repr

/-- Modelled from the spec: FLOAT_FIELD, the pure descriptor builder for
float fields (spec section 4.1). -/
def FLOAT_FIELD (a : FloatFieldArgs) : FieldDescriptor :=
  { kind := FieldKind.float
    value := FieldValue.vFloat a.value
    default_value :=
      match a.default_value with
      | some v => FieldValue.vFloat v
      | none => FieldValue.vNone
    description := a.description
    display_name := a.display_name
    display_unit := none
    valid_min := a.valid_min
    valid_max := a.valid_max
    valid_options := none
    math_cond := a.math_cond
    automl_enabled := ""
    popular := a.popular }

/-- Keyword arguments accepted by the STR_FIELD builder at its call sites in
the source; `value = none` is the unset sentinel for the optional string
fields. -/
structure StrFieldArgs where
  value : Option String
  default_value : Option String := none
  description : String := ""
  display_name : Option String := none
  valid_options : Option String := none
  popular : String := ""
deriving DecidableEq, Repr

/-- Modelled from the spec: STR_FIELD, the pure descriptor builder for
string fields (spec section 4.1); `valid_options` keeps the comma-joined
option string exactly as the call site passes it. -/
def STR_FIELD (a : StrFieldArgs) : FieldDescriptor :=
  { kind := FieldKind.str
    value :=
      match a.value with
      | some s => FieldValue.vStr s
      | none => FieldValue.vNone
    default_value :=
      match a.default_value with
      | some s => FieldValue.vStr s
      | none => FieldValue.vNone
    description := a.description
    display_name := a.display_name
    display_unit := none
    valid_min := NumBound.unset
    valid_max := NumBound.unset
    valid_options := a.valid_options
    math_cond := none
    automl_enabled := ""
    popular := a.popular }

/-- Keyword arguments accepted by the LIST_FIELD builder at its call sites
in the source: a list payload `arrList` plus display metadata. -/
structure ListFieldArgs where
  arrList : FieldValue
  description : String := ""
  display_name : Option String := none
deriving DecidableEq, Repr

/-- Modelled from the spec: LIST_FIELD, the pure descriptor builder for list
fields (spec section 4.1); none of its call sites declares a default value. -/
def LIST_FIELD (a : ListFieldArgs) : FieldDescriptor :=
  { kind := FieldKind.list
    value := a.arrList
    default_value := FieldValue.vNone
    description := a.description
    display_name := a.display_name
    display_unit := none
    valid_min := NumBound.unset
    valid_max := NumBound.unset
    valid_options := none
    math_cond := none
    automl_enabled := ""
    popular := "" }

/-- Modelled from the spec: the Swin backbone registry `swin_model_dict` is
defined in the model module outside this fragment; the schema only consumes
its key set.  The spec records that the TAO implementation supports Swin
variants and ResNet50, with the declared default backbone
"swin_tiny_224_1k" among the supported Swin keys. -/
def swin_model_dict_keys : List String :=
  ["swin_tiny_224_1k", "swin_base_224_22k", "swin_base_384_22k",
   "swin_large_224_22k", "swin_large_384_22k"]

/-- SUPPORTED_BACKBONES: the Swin registry keys extended with resnet_50,
exactly as built at the top of the config module. -/
def SUPPORTED_BACKBONES : List String :=
  swin_model_dict_keys ++ ["resnet_50"]

/-- Field `pretrained_backbone_path` of GDINOModelConfig. -/
def pretrained_backbone_path : FieldDescriptor := STR_FIELD
  { value := none
    default_value := some ""
    display_name := some "pretrained backbone path"
    description := "[Optional] Path to a pretrained backbone file." }

/-- Field `backbone` of GDINOModelConfig: valid options are the comma-join
of SUPPORTED_BACKBONES. -/
def backbone : FieldDescriptor := STR_FIELD
  { value := some "swin_tiny_224_1k"
    default_value := some "swin_tiny_224_1k"
    display_name := some "backbone"
    description := "The backbone name of the model. TAO implementation of DINO support Swin and ResNet50."
    valid_options := some (String.intercalate "," SUPPORTED_BACKBONES)
    popular := "yes" }

/-- Field `num_queries` of GDINOModelConfig. -/
def num_queries : FieldDescriptor := INT_FIELD
  { value := 900
    default_value := some 900
    description := "The number of queries"
    display_name := some "number of queries"
    valid_min := NumBound.num 1
    valid_max := NumBound.inf
    automl_enabled := "TRUE"
    popular := "yes" }

/-- Field `num_feature_levels` of GDINOModelConfig. -/
def num_feature_levels : FieldDescriptor := INT_FIELD
  { value := 4
    default_value := some 4
    description := "The number of feature levels to use in the model"
    display_name := some "number of feature levels"
    valid_min := NumBound.num 1
    valid_max := NumBound.num 5 }

/-- Field `set_cost_class` of GDINOModelConfig. -/
def set_cost_class : FieldDescriptor := FLOAT_FIELD
  { value := 1
    default_value := some 1
    valid_min := NumBound.num 0
    valid_max := NumBound.inf
    description := "The relative weight of the classification error in the matching cost."
    display_name := some "Set cost classification"
    popular := "yes" }

/-- Field `set_cost_bbox` of GDINOModelConfig. -/
def set_cost_bbox : FieldDescriptor := FLOAT_FIELD
  { value := 5
    default_value := some 5
    valid_min := NumBound.num 0
    valid_max := NumBound.inf
    description := "The relative weight of the L1 error of the bounding box coordinates in the matching cost."
    display_name := some "Set cost BBox "
    popular := "yes" }

/-- Field `set_cost_giou` of GDINOModelConfig. -/
def set_cost_giou : FieldDescriptor := FLOAT_FIELD
  { value := 2
    default_value := some 2
    valid_min := NumBound.num 0
    valid_max := NumBound.inf
    description := "The relative weight of the GIoU loss of the bounding box in the matching cost."
    display_name := some "Set cost GIoU"
    popular := "yes" }

/-- Field `cls_loss_coef` of GDINOModelConfig. -/
def cls_loss_coef : FieldDescriptor := FLOAT_FIELD
  { value := 2
    default_value := some 2
    valid_min := NumBound.num 0
    valid_max := NumBound.inf
    description := "The relative weight of the classification error in the final loss."
    display_name := some "Class loss coefficient"
    popular := "yes" }

/-- Field `bbox_loss_coef` of GDINOModelConfig. -/
def bbox_loss_coef : FieldDescriptor := FLOAT_FIELD
  { value := 5
    default_value := some 5
    valid_min := NumBound.num 0
    valid_max := NumBound.inf
    description := "The relative weight of the L1 error of the bounding box coordinates in the final loss."
    display_name := some "BBox loss coefficient"
    popular := "yes" }

/-- Field `giou_loss_coef` of GDINOModelConfig. -/
def giou_loss_coef : FieldDescriptor := FLOAT_FIELD
  { value := 2
    default_value := some 2
    valid_min := NumBound.num 0
    valid_max := NumBound.inf
    description := "The relative weight of the GIoU loss of the bounding box in the final loss."
    display_name := some "GIoU loss coefficient"
    popular := "yes" }

/-- Field `num_select` of GDINOModelConfig: declares a lower bound only. -/
def num_select : FieldDescriptor := INT_FIELD
  { value := 300
    default_value := some 300
    description := "The number of top-K predictions selected during post-process"
    display_name := some "num select"
    valid_min := NumBound.num 1
    automl_enabled := "TRUE"
    popular := "yes" }

/-- Field `interm_loss_coef` of GDINOModelConfig: declares a value only. -/
def interm_loss_coef : FieldDescriptor := FLOAT_FIELD
  { value := 1
    display_name := some "intermediate loss coefficient" }

/-- Field `no_interm_box_loss` of GDINOModelConfig. -/
def no_interm_box_loss : FieldDescriptor := BOOL_FIELD
  { value := false
    default_value := some false
    description := "No intermediate bbox loss."
    display_name := some "no interm bbox loss" }

/-- Field `pre_norm` of GDINOModelConfig. -/
def pre_norm : FieldDescriptor := BOOL_FIELD
  { value := false
    default_value := some false
    description := "Flag to add layer norm in the encoder or not."
    display_name := some "Pre norm" }

/-- Field `two_stage_type` of GDINOModelConfig: valid options are the
comma-join of standard and no. -/
def two_stage_type : FieldDescriptor := STR_FIELD
  { value := some "standard"
    default_value := some "standard"
    valid_options := some (String.intercalate "," ["standard", "no"])
    description := "Type of two stage in DINO"
    display_name := some "two stage type" }

/-- Field `decoder_sa_type` of GDINOModelConfig: valid options are the
comma-join of sa, ca_label and ca_content. -/
def decoder_sa_type : FieldDescriptor := STR_FIELD
  { value := some "sa"
    default_value := some "sa"
    description := "Type of decoder self attention."
    valid_options := some (String.intercalate "," ["sa", "ca_label", "ca_content"])
    display_name := some "decoder self-attention type" }

/-- Field `embed_init_tgt` of GDINOModelConfig. -/
def embed_init_tgt : FieldDescriptor := BOOL_FIELD
  { value := true
    default_value := some true
    description := "Flag to add target embedding"
    display_name := some "embed init target" }

/-- Field `fix_refpoints_hw` of GDINOModelConfig: value -1, bounds [-2, inf)
and the math condition stating the value must differ from 0. -/
def fix_refpoints_hw : FieldDescriptor := INT_FIELD
  { value := -1
    default_value := some (-1)
    valid_min := NumBound.num (-2)
    valid_max := NumBound.inf
    description := "If this value is -1, width and height are learned seperately for each box. If this value is -2, a shared width and height are learned. A value greater than 0 specifies learning with a fixed number."
    math_cond := some "!= 0"
    display_name := some "fix refpoints hw" }

/-- Field `pe_temperatureH` of GDINOModelConfig. -/
def pe_temperatureH : FieldDescriptor := INT_FIELD
  { value := 20
    default_value := some 20
    description := "The temperature applied to the height dimension of the positional sine embedding."
    display_name := some "pe_temperatureH"
    valid_min := NumBound.num 1
    valid_max := NumBound.inf }

/-- Field `pe_temperatureW` of GDINOModelConfig. -/
def pe_temperatureW : FieldDescriptor := INT_FIELD
  { value := 20
    default_value := some 20
    description := "The temperature applied to the width dimension of the positional sine embedding."
    display_name := some "pe_temperatureW"
    valid_min := NumBound.num 1
    valid_max := NumBound.inf }

/-- Field `return_interm_indices` of GDINOModelConfig: the list [1,2,3,4]
whose length must match num_feature_levels. -/
def return_interm_indices : FieldDescriptor := LIST_FIELD
  { arrList := FieldValue.vIntList [1, 2, 3, 4]
    description := "The index of feature levels to use in the model. The length must match num_feature_levels."
    display_name := some "return interim indices" }

/-- Field `use_dn` of GDINOModelConfig. -/
def use_dn : FieldDescriptor := BOOL_FIELD
  { value := true
    default_value := some true
    description := "A flag specifying whether to enbable contrastive de-noising training in DINO"
    display_name := some "use denoising" }

/-- Field `dn_number` of GDINOModelConfig. -/
def dn_number : FieldDescriptor := INT_FIELD
  { value := 0
    default_value := some 0
    description := "The number of denoising queries in DINO."
    display_name := some "denoising number"
    valid_min := NumBound.num 0
    valid_max := NumBound.inf }

/-- Field `dn_box_noise_scale` of GDINOModelConfig. -/
def dn_box_noise_scale : FieldDescriptor := FLOAT_FIELD
  { value := 1
    default_value := some 1
    description := "The scale of noise applied to boxes during contrastive de-noising. If this value is 0, noise is not applied."
    display_name := some "Denoised boxes noise scaling"
    valid_min := NumBound.num 0
    valid_max := NumBound.inf }

/-- Field `dn_label_noise_ratio` of GDINOModelConfig: declares a lower bound
only. -/
def dn_label_noise_ratio : FieldDescriptor := FLOAT_FIELD
  { value := mkRat 1 2
    default_value := some (mkRat 1 2)
    description := "The scale of the noise applied to labels during contrastive denoising. If this value is 0, then noise is no applied."
    display_name := some "denoise label noise ratio"
    valid_min := NumBound.num 0 }

/-- Field `focal_alpha` of GDINOModelConfig: declares a math condition but
no default value and no bounds. -/
def focal_alpha : FieldDescriptor := FLOAT_FIELD
  { value := mkRat 1 4
    description := "The alpha value in the focal loss."
    display_name := some "focal alpha"
    math_cond := some "> 0.0" }

/-- Field `focal_gamma` of GDINOModelConfig: declares a math condition but
no default value and no bounds. -/
def focal_gamma : FieldDescriptor := FLOAT_FIELD
  { value := 2
    description := "The gamma value in the focal loss."
    display_name := some "focal gamma"
    math_cond := some "> 0.0" }

/-- Field `clip_max_norm` of GDINOModelConfig: declares a value only, with
an empty description. -/
def clip_max_norm : FieldDescriptor := FLOAT_FIELD
  { value := mkRat 1 10
    display_name := some "clip max norm"
    description := "" }

/-- Field `nheads` of GDINOModelConfig. -/
def nheads : FieldDescriptor := INT_FIELD
  { value := 8
    default_value := some 8
    description := "Number of heads"
    display_name := some "nheads" }

/-- Field `dropout_ratio` of GDINOModelConfig: value 0.0 with bounds
[0.0, 1.0]. -/
def dropout_ratio : FieldDescriptor := FLOAT_FIELD
  { value := 0
    default_value := some 0
    description := "The probability to drop hidden units."
    display_name := some "drop out ratio"
    valid_min := NumBound.num 0
    valid_max := NumBound.num 1 }

/-- Field `hidden_dim` of GDINOModelConfig: its builder call passes
display_unit instead of display_name, the only field of the schema to do
so. -/
def hidden_dim : FieldDescriptor := INT_FIELD
  { value := 256
    default_value := some 256
    description := "Dimension of the hidden units."
    display_unit := some "hidden dim"
    automl_enabled := "FALSE" }

/-- Field `enc_layers` of GDINOModelConfig: declares a lower bound only. -/
def enc_layers : FieldDescriptor := INT_FIELD
  { value := 6
    default_value := some 6
    description := "Numer of encoder layers in the transformer"
    valid_min := NumBound.num 1
    automl_enabled := "TRUE"
    display_name := some "encoder layers" }

/-- Field `dec_layers` of GDINOModelConfig: declares a lower bound only. -/
def dec_layers : FieldDescriptor := INT_FIELD
  { value := 6
    default_value := some 6
    description := "Numer of decoder layers in the transformer"
    valid_min := NumBound.num 1
    automl_enabled := "TRUE"
    display_name := some "decoder layers" }

/-- Field `dim_feedforward` of GDINOModelConfig: no default value. -/
def dim_feedforward : FieldDescriptor := INT_FIELD
  { value := 2048
    description := "Dimension of the feedforward network"
    display_name := some "dim feedforward"
    valid_min := NumBound.num 1 }

/-- Field `dec_n_points` of GDINOModelConfig: no default value. -/
def dec_n_points : FieldDescriptor := INT_FIELD
  { value := 4
    display_name := some "decoder n points"
    description := "Number of reference points in the decoder."
    valid_min := NumBound.num 1 }

/-- Field `enc_n_points` of GDINOModelConfig: no default value. -/
def enc_n_points : FieldDescriptor := INT_FIELD
  { value := 4
    display_name := some "encoder n points"
    description := "Number of reference points in the encoder."
    valid_min := NumBound.num 1 }

/-- Field `aux_loss` of GDINOModelConfig. -/
def aux_loss : FieldDescriptor := BOOL_FIELD
  { value := true
    default_value := some true
    display_name := some "Train backbone"
    description := "A flag specifying whether to use auxiliary decoding losses (loss at each decoder layer)" }

/-- Field `dilation` of GDINOModelConfig. -/
def dilation : FieldDescriptor := BOOL_FIELD
  { value := false
    default_value := some false
    display_name := some "Dilation enabled."
    description := "A flag specifying whether enable dilation or not in the backbone." }

/-- Field `train_backbone` of GDINOModelConfig. -/
def train_backbone : FieldDescriptor := BOOL_FIELD
  { value := true
    default_value := some true
    display_name := some "Train backbone"
    description := "Flag to set backbone weights as trainable or frozen. When set to False, the backbone weights will be frozen." }

/-- Field `text_encoder_type` of GDINOModelConfig. -/
def text_encoder_type : FieldDescriptor := STR_FIELD
  { value := some "bert-base-uncased"
    default_value := some "bert-base-uncased"
    display_name := some "Text encoder type"
    description := "BERT encoder type. If only the name of the type is provided, the weight is download from the HuggingFace Hub. If a path is provided, then we load the weight from the local path." }

/-- Field `max_text_len` of GDINOModelConfig: no default value. -/
def max_text_len : FieldDescriptor := INT_FIELD
  { value := 256
    display_name := some "Maximum text length"
    description := "Maximum text length of BERT."
    valid_min := NumBound.num 1 }

/-- Field `class_embed_bias` of GDINOModelConfig. -/
def class_embed_bias : FieldDescriptor := BOOL_FIELD
  { value := false
    default_value := some false
    display_name := some "Class embedding bias"
    description := "Flag to set bias in the contrastive embedding." }

/-- Field `log_scale` of GDINOModelConfig: the declared value is the unset
sentinel None while the declared default value is the string "none". -/
def log_scale : FieldDescriptor := STR_FIELD
  { value := none
    default_value := some "none"
    display_name := some "log scale"
    description := "[Optional] The initial value of a learnable parameter to multiply with the similarity matrix to normalize the output. Defaults to None. If set to auto, the similarity matrix will be normalized by a fixed value sqrt(d_c) where d_c is the channel number. If set to none or None, there is no normalization applied." }

/-- Field `loss_types` of GDINOModelConfig. -/
def loss_types : FieldDescriptor := LIST_FIELD
  { arrList := FieldValue.vStrList ["labels", "boxes"]
    description := "Losses to be used during training"
    display_name := some "loss_types" }

/-- Field `backbone_names` of GDINOModelConfig. -/
def backbone_names : FieldDescriptor := LIST_FIELD
  { arrList := FieldValue.vStrList ["backbone.0", "bert"]
    description := "Prefix of the tensor names corresponding to the backbone."
    display_name := some "Backbone tensor name prefix" }

/-- Field `linear_proj_names` of GDINOModelConfig. -/
def linear_proj_names : FieldDescriptor := LIST_FIELD
  { arrList := FieldValue.vStrList ["reference_points", "sampling_offsets"]
    display_name := some "linear projection names"
    description := "Linear projection layer names." }

/-- The schema of GDINOModelConfig: its fields in declaration order, each
with its attribute name, exactly the field list of the dataclass. -/
def GDINOModelConfigFields : List (String × FieldDescriptor) :=
  [("pretrained_backbone_path", pretrained_backbone_path),
   ("backbone", backbone),
   ("num_queries", num_queries),
   ("num_feature_levels", num_feature_levels),
   ("set_cost_class", set_cost_class),
   ("set_cost_bbox", set_cost_bbox),
   ("set_cost_giou", set_cost_giou),
   ("cls_loss_coef", cls_loss_coef),
   ("bbox_loss_coef", bbox_loss_coef),
   ("giou_loss_coef", giou_loss_coef),
   ("num_select", num_select),
   ("interm_loss_coef", interm_loss_coef),
   ("no_interm_box_loss", no_interm_box_loss),
   ("pre_norm", pre_norm),
   ("two_stage_type", two_stage_type),
   ("decoder_sa_type", decoder_sa_type),
   ("embed_init_tgt", embed_init_tgt),
   ("fix_refpoints_hw", fix_refpoints_hw),
   ("pe_temperatureH", pe_temperatureH),
   ("pe_temperatureW", pe_temperatureW),
   ("return_interm_indices", return_interm_indices),
   ("use_dn", use_dn),
   ("dn_number", dn_number),
   ("dn_box_noise_scale", dn_box_noise_scale),
   ("dn_label_noise_ratio", dn_label_noise_ratio),
   ("focal_alpha", focal_alpha),
   ("focal_gamma", focal_gamma),
   ("clip_max_norm", clip_max_norm),
   ("nheads", nheads),
   ("dropout_ratio", dropout_ratio),
   ("hidden_dim", hidden_dim),
   ("enc_layers", enc_layers),
   ("dec_layers", dec_layers),
   ("dim_feedforward", dim_feedforward),
   ("dec_n_points", dec_n_points),
   ("enc_n_points", enc_n_points),
   ("aux_loss", aux_loss),
   ("dilation", dilation),
   ("train_backbone", train_backbone),
   ("text_encoder_type", text_encoder_type),
   ("max_text_len", max_text_len),
   ("class_embed_bias", class_embed_bias),
   ("log_scale", log_scale),
   ("loss_types", loss_types),
   ("backbone_names", backbone_names),
   ("linear_proj_names", linear_proj_names)]

/-- The numeric content of a field value: ints and floats viewed as exact
rationals, everything else non-numeric. -/
def FieldValue.asRat : FieldValue → Option Rat
  | FieldValue.vInt n => some (n : Rat)
  | FieldValue.vFloat q => some q
  | _ => none

/-- Modelled from the spec: the consuming validator evaluates the optional
math-condition predicate string against the value; the schema uses exactly
the predicates "!= 0" and "> 0.0" (spec section 3: a predicate string
evaluated against value, orthogonal to bounds). -/
def mathCondHolds (cond : Option String) (v : Rat) : Bool :=
  match cond with
  | none => true
  | some c =>
      if c = "!= 0" then decide (v ≠ 0)
      else if c = "> 0.0" then decide (0 < v)
      else true

/-- Modelled from the spec: the bounds check performed by the consuming
validator; an absent bound does not constrain and the "inf" sentinel means
unbounded (spec section 3). -/
def boundsOk (v : Rat) (mn mx : NumBound) : Bool :=
  (match mn with
   | NumBound.unset => true
   | NumBound.num q => decide (q ≤ v)
   | NumBound.inf => true) &&
  (match mx with
   | NumBound.unset => true
   | NumBound.num q => decide (v ≤ q)
   | NumBound.inf => true)

/-- Modelled from the spec: the per-field numeric check of the consuming
validator: a numeric value must satisfy the declared bounds and, when
present, the math condition; non-numeric fields are not constrained by this
check (spec sections 3 and 4.2). -/
def numericFieldOk (d : FieldDescriptor) : Bool :=
  match FieldValue.asRat d.value with
  | none => true
  | some v => boundsOk v d.valid_min d.valid_max && mathCondHolds d.math_cond v

/-- Splitting a character list at every occurrence of a separator, by
structural recursion. -/
def splitCharList (sep : Char) : List Char → List (List Char)
  | [] => [[]]
  | c :: cs =>
      let r := splitCharList sep cs
      if c = sep then [] :: r
      else
        match r with
        | [] => [[c]]
        | h :: t => (c :: h) :: t

/-- Splitting a string at commas: recovers the option list from the
comma-joined `valid_options` encoding the schema stores. -/
def splitOnComma (s : String) : List String :=
  (splitCharList ',' s.data).map (fun cs => String.mk cs)

/-- Modelled from the spec: the per-field enum check of the consuming
validator: a string value must be a member of the declared comma-joined
option set, with the unset sentinel None exempt (spec sections 3 and 4.2). -/
def enumFieldOk (d : FieldDescriptor) : Bool :=
  match d.valid_options with
  | none => true
  | some opts =>
      match d.value with
      | FieldValue.vStr s => (splitOnComma opts).contains s
      | _ => true

/-- Well-formedness of a declared bounds pair (spec section 4.1): when both
a finite minimum and a finite maximum are declared, the minimum does not
exceed the maximum; the "inf" sentinel and absent bounds are unconstrained. -/
def boundsWellFormed (d : FieldDescriptor) : Bool :=
  match d.valid_min, d.valid_max with
  | NumBound.num a, NumBound.num b => decide (a ≤ b)
  | _, _ => true

/-- Modelled from the spec: the effective value of a field after config
load; when the user supplies no override the loader falls back to the
field's declared default value (spec section 8, default-value round-trip). -/
def effectiveValue (d : FieldDescriptor) (override : Option FieldValue) : FieldValue :=
  match override with
  | some v => v
  | none => d.default_value

/-- The runtime value holder of GDINOModelConfig: one attribute per
dataclass field, with the Python types mapped to Lean (Optional[str] to
Option String, float to Rat, List[int] to List Int). -/
structure GDINOModelConfig where
  pretrained_backbone_path : Option String
  backbone : String
  num_queries : Int
  num_feature_levels : Int
  set_cost_class : Rat
  set_cost_bbox : Rat
  set_cost_giou : Rat
  cls_loss_coef : Rat
  bbox_loss_coef : Rat
  giou_loss_coef : Rat
  num_select : Int
  interm_loss_coef : Rat
  no_interm_box_loss : Bool
  pre_norm : Bool
  two_stage_type : String
  decoder_sa_type : String
  embed_init_tgt : Bool
  fix_refpoints_hw : Int
  pe_temperatureH : Int
  pe_temperatureW : Int
  return_interm_indices : List Int
  use_dn : Bool
  dn_number : Int
  dn_box_noise_scale : Rat
  dn_label_noise_ratio : Rat
  focal_alpha : Rat
  focal_gamma : Rat
  clip_max_norm : Rat
  nheads : Int
  dropout_ratio : Rat
  hidden_dim : Int
  enc_layers : Int
  dec_layers : Int
  dim_feedforward : Int
  dec_n_points : Int
  enc_n_points : Int
  aux_loss : Bool
  dilation : Bool
  train_backbone : Bool
  text_encoder_type : String
  max_text_len : Int
  class_embed_bias : Bool
  log_scale : Option String
  loss_types : List String
  backbone_names : List String
  linear_proj_names : List String

/-- The record holding every field's declared value: the instance the
dataclass yields when nothing is overridden. -/
def defaultGDINOModelConfig : GDINOModelConfig :=
  { pretrained_backbone_path := none
    backbone := "swin_tiny_224_1k"
    num_queries := 900
    num_feature_levels := 4
    set_cost_class := 1
    set_cost_bbox := 5
    set_cost_giou := 2
    cls_loss_coef := 2
    bbox_loss_coef := 5
    giou_loss_coef := 2
    num_select := 300
    interm_loss_coef := 1
    no_interm_box_loss := false
    pre_norm := false
    two_stage_type := "standard"
    decoder_sa_type := "sa"
    embed_init_tgt := true
    fix_refpoints_hw := -1
    pe_temperatureH := 20
    pe_temperatureW := 20
    return_interm_indices := [1, 2, 3, 4]
    use_dn := true
    dn_number := 0
    dn_box_noise_scale := 1
    dn_label_noise_ratio := mkRat 1 2
    focal_alpha := mkRat 1 4
    focal_gamma := 2
    clip_max_norm := mkRat 1 10
    nheads := 8
    dropout_ratio := 0
    hidden_dim := 256
    enc_layers := 6
    dec_layers := 6
    dim_feedforward := 2048
    dec_n_points := 4
    enc_n_points := 4
    aux_loss := true
    dilation := false
    train_backbone := true
    text_encoder_type := "bert-base-uncased"
    max_text_len := 256
    class_embed_bias := false
    log_scale := none
    loss_types := ["labels", "boxes"]
    backbone_names := ["backbone.0", "bert"]
    linear_proj_names := ["reference_points", "sampling_offsets"] }

/-- The dataclass decorator on GDINOModelConfig is the plain `dataclass`,
not `dataclass(frozen=True)`: the class is declared mutable. -/
def gdinoFrozen : Bool := false

/-- Python dataclass semantics: attribute assignment on an instance raises
FrozenInstanceError exactly when the dataclass is frozen; GDINOModelConfig
is not frozen, so assignment is permitted. -/
def fieldAssignmentPermitted : Bool := !gdinoFrozen

/-- The Python attribute assignment `cfg.num_queries = n` on the runtime
record: replaces that one attribute and touches nothing else. -/
def setNumQueries (cfg : GDINOModelConfig) (n : Int) : GDINOModelConfig :=
  { cfg with num_queries := n }

/-- Modelled from the spec: the cross-field invariant checked by the
consuming validator, the length of return_interm_indices must equal
num_feature_levels (spec sections 3 and 4.2). -/
def crossFieldValid (cfg : GDINOModelConfig) : Bool :=
  decide ((cfg.return_interm_indices.length : Int) = cfg.num_feature_levels)

/-- The outcome of one dispatcher run: control transferred to a named
subtask with the unconsumed remainder of the command line, a
subtask-not-found usage error listing the valid names, or a fatal discovery
error when no subtask exists. -/
inductive DispatchOutcome where
  | launched (name : String) (remainder : List String)
  | subtaskNotFoundError (validNames : List String)
  | discoveryError
deriving DecidableEq, Repr

/-- Modelled from the spec: the generic dispatcher behind `main`
(`get_subtasks`, `command_line_parser` and `launch` live outside this
fragment).  Per spec section 4.3: fail fatally when the registry is empty;
otherwise read the first positional token as the subtask name, keep the
rest as the unknown-argument remainder, and either transfer control to the
named subtask with the remainder forwarded unmodified or fail with a
subtask-not-found usage error listing the valid names, with no partial
execution. -/
def dispatch (registry : List String) (argv : List String) : DispatchOutcome :=
  if registry.isEmpty then DispatchOutcome.discoveryError
  else
    match argv with
    | [] => DispatchOutcome.subtaskNotFoundError registry
    | name :: rest =>
        if registry.contains name then DispatchOutcome.launched name rest
        else DispatchOutcome.subtaskNotFoundError registry

/-- C1: every numeric field of GDINOModelConfig that declares bounds has its
declared value within [valid_min, valid_max] (the "inf" sentinel is
unbounded above) and satisfies its declared math condition when one is
present; in particular fix_refpoints_hw declares value -1 with valid_min
-2, valid_max inf and math condition "!= 0", all satisfied, and
dropout_ratio declares value 0.0 lying in [0.0, 1.0]. -/
theorem C1_numeric_values_satisfy_bounds :
    (GDINOModelConfigFields.all fun p => numericFieldOk p.2) = true ∧
    fix_refpoints_hw.value = FieldValue.vInt (-1) ∧
    fix_refpoints_hw.valid_min = NumBound.num (-2) ∧
    fix_refpoints_hw.valid_max = NumBound.inf ∧
    fix_refpoints_hw.math_cond = some "!= 0" ∧
    numericFieldOk fix_refpoints_hw = true ∧
    dropout_ratio.value = FieldValue.vFloat 0 ∧
    dropout_ratio.valid_min = NumBound.num 0 ∧
    dropout_ratio.valid_max = NumBound.num 1 ∧
    numericFieldOk dropout_ratio = true := by
  decide

/-- C2: every string field of GDINOModelConfig that declares valid_options
has its declared value in that option set (the unset sentinel None is
exempt): backbone's value "swin_tiny_224_1k" is among SUPPORTED_BACKBONES,
two_stage_type's value "standard" is in the set standard/no, and
decoder_sa_type's value "sa" is in the set sa/ca_label/ca_content. -/
theorem C2_enum_values_are_members :
    (GDINOModelConfigFields.all fun p => enumFieldOk p.2) = true ∧
    backbone.value = FieldValue.vStr "swin_tiny_224_1k" ∧
    backbone.valid_options = some (String.intercalate "," SUPPORTED_BACKBONES) ∧
    SUPPORTED_BACKBONES.contains "swin_tiny_224_1k" = true ∧
    enumFieldOk backbone = true ∧
    two_stage_type.value = FieldValue.vStr "standard" ∧
    two_stage_type.valid_options = some "standard,no" ∧
    enumFieldOk two_stage_type = true ∧
    decoder_sa_type.value = FieldValue.vStr "sa" ∧
    decoder_sa_type.valid_options = some "sa,ca_label,ca_content" ∧
    enumFieldOk decoder_sa_type = true := by
  decide

/-- C3: the cross-field invariant: the default GDINOModelConfig has
num_feature_levels 4 and return_interm_indices [1,2,3,4] and passes the
cross-field validation, while the same record with return_interm_indices
replaced by [1,2,3] fails it. -/
theorem C3_cross_field_length_invariant :
    defaultGDINOModelConfig.num_feature_levels = 4 ∧
    defaultGDINOModelConfig.return_interm_indices = [1, 2, 3, 4] ∧
    crossFieldValid defaultGDINOModelConfig = true ∧
    crossFieldValid { defaultGDINOModelConfig with return_interm_indices := [1, 2, 3] } = false := by
  decide

/-- C4 (counterexample): descriptor construction does not fail fast on an
out-of-bounds value: INT_FIELD called with value 0 against a declared
minimum of 1 succeeds and returns a descriptor still holding value 0, even
though the value violates the bounds. -/
theorem C4_construction_accepts_out_of_bounds :
    (INT_FIELD { value := 0, valid_min := NumBound.num 1 }).value = FieldValue.vInt 0 ∧
    boundsOk ((0 : Int) : Rat) (NumBound.num 1) NumBound.unset = false := by
  decide

/-- C4 (amended): a numeric descriptor built with a value outside its
declared bounds is never silently accepted as valid, clamped or coerced:
the validator reports it (numericFieldOk is false) and the descriptor keeps
exactly the given value; construction itself is pure and does not fail —
enforcement is the consuming validator's job. -/
theorem C4_out_of_bounds_reported_not_clamped :
    (∀ a : IntFieldArgs, boundsOk ((a.value : Int) : Rat) a.valid_min a.valid_max = false →
      numericFieldOk (INT_FIELD a) = false ∧ (INT_FIELD a).value = FieldValue.vInt a.value) ∧
    (∀ a : FloatFieldArgs, boundsOk a.value a.valid_min a.valid_max = false →
      numericFieldOk (FLOAT_FIELD a) = false ∧ (FLOAT_FIELD a).value = FieldValue.vFloat a.value) := by
  constructor
  · intro a h
    refine ⟨?_, rfl⟩
    simp [numericFieldOk, INT_FIELD, FieldValue.asRat, h]
  · intro a h
    refine ⟨?_, rfl⟩
    simp [numericFieldOk, FLOAT_FIELD, FieldValue.asRat, h]

/-- Witness for the amended C4: INT_FIELD built with value -3 against the
declared bounds [0, 10] is flagged by the validator and keeps the value
-3. -/
theorem C4_out_of_bounds_reported_not_clamped_w :
    numericFieldOk (INT_FIELD
      { value := -3, valid_min := NumBound.num 0, valid_max := NumBound.num 10 }) = false ∧
    (INT_FIELD
      { value := -3, valid_min := NumBound.num 0, valid_max := NumBound.num 10 }).value =
      FieldValue.vInt (-3) :=
  C4_out_of_bounds_reported_not_clamped.1
    { value := -3, valid_min := NumBound.num 0, valid_max := NumBound.num 10 } (by decide)

/-- C5: for the subtask registry train/evaluate/export, dispatching
["evaluate", "--epoch", "5"] selects the evaluate subtask and forwards the
remainder ["--epoch", "5"] unmodified, while dispatching ["bogus"] yields a
subtask-not-found error listing the three valid subtask names, with no
launch. -/
theorem C5_dispatch_selects_and_forwards :
    dispatch ["train", "evaluate", "export"] ["evaluate", "--epoch", "5"] =
      DispatchOutcome.launched "evaluate" ["--epoch", "5"] ∧
    dispatch ["train", "evaluate", "export"] ["bogus"] =
      DispatchOutcome.subtaskNotFoundError ["train", "evaluate", "export"] := by
  decide

/-- C6: for every field of GDINOModelConfig the effective value after a
load with no user override equals the field's declared default value — not
its declared value where the two differ: log_scale declares value None but
default value "none", and pretrained_backbone_path declares value None but
default value "". -/
theorem C6_default_value_round_trip :
    (GDINOModelConfigFields.all fun p =>
      decide (effectiveValue p.2 none = p.2.default_value)) = true ∧
    log_scale.value = FieldValue.vNone ∧
    log_scale.default_value = FieldValue.vStr "none" ∧
    effectiveValue log_scale none = FieldValue.vStr "none" ∧
    pretrained_backbone_path.value = FieldValue.vNone ∧
    pretrained_backbone_path.default_value = FieldValue.vStr "" ∧
    effectiveValue pretrained_backbone_path none = FieldValue.vStr "" := by
  decide

/-- C7 (counterexample): the record is not immutable after construction:
GDINOModelConfig is a plain dataclass, not a frozen one, so Python permits
attribute assignment; assigning 7 to num_queries on the default record is
accepted and observably changes the field from 900 to 7. -/
theorem C7_mutation_is_permitted :
    gdinoFrozen = false ∧
    fieldAssignmentPermitted = true ∧
    (setNumQueries defaultGDINOModelConfig 7).num_queries = 7 ∧
    defaultGDINOModelConfig.num_queries = 900 :=
  ⟨rfl, rfl, rfl, rfl⟩

/-- C7 (amended): the record does not enforce immutability — the dataclass
is not frozen, so a field's value can be reassigned after construction;
such an assignment replaces exactly the targeted field and leaves every
other field unchanged.  Immutability during a run is a convention of the
callers, not a property of the record. -/
theorem C7_assignment_frame :
    ∀ (cfg : GDINOModelConfig) (n : Int),
      fieldAssignmentPermitted = true ∧
      (setNumQueries cfg n).num_queries = n ∧
      (setNumQueries cfg n).pretrained_backbone_path = cfg.pretrained_backbone_path ∧
      (setNumQueries cfg n).backbone = cfg.backbone ∧
      (setNumQueries cfg n).num_feature_levels = cfg.num_feature_levels ∧
      (setNumQueries cfg n).set_cost_class = cfg.set_cost_class ∧
      (setNumQueries cfg n).set_cost_bbox = cfg.set_cost_bbox ∧
      (setNumQueries cfg n).set_cost_giou = cfg.set_cost_giou ∧
      (setNumQueries cfg n).cls_loss_coef = cfg.cls_loss_coef ∧
      (setNumQueries cfg n).bbox_loss_coef = cfg.bbox_loss_coef ∧
      (setNumQueries cfg n).giou_loss_coef = cfg.giou_loss_coef ∧
      (setNumQueries cfg n).num_select = cfg.num_select ∧
      (setNumQueries cfg n).interm_loss_coef = cfg.interm_loss_coef ∧
      (setNumQueries cfg n).no_interm_box_loss = cfg.no_interm_box_loss ∧
      (setNumQueries cfg n).pre_norm = cfg.pre_norm ∧
      (setNumQueries cfg n).two_stage_type = cfg.two_stage_type ∧
      (setNumQueries cfg n).decoder_sa_type = cfg.decoder_sa_type ∧
      (setNumQueries cfg n).embed_init_tgt = cfg.embed_init_tgt ∧
      (setNumQueries cfg n).fix_refpoints_hw = cfg.fix_refpoints_hw ∧
      (setNumQueries cfg n).pe_temperatureH = cfg.pe_temperatureH ∧
      (setNumQueries cfg n).pe_temperatureW = cfg.pe_temperatureW ∧
      (setNumQueries cfg n).return_interm_indices = cfg.return_interm_indices ∧
      (setNumQueries cfg n).use_dn = cfg.use_dn ∧
      (setNumQueries cfg n).dn_number = cfg.dn_number ∧
      (setNumQueries cfg n).dn_box_noise_scale = cfg.dn_box_noise_scale ∧
      (setNumQueries cfg n).dn_label_noise_ratio = cfg.dn_label_noise_ratio ∧
      (setNumQueries cfg n).focal_alpha = cfg.focal_alpha ∧
      (setNumQueries cfg n).focal_gamma = cfg.focal_gamma ∧
      (setNumQueries cfg n).clip_max_norm = cfg.clip_max_norm ∧
      (setNumQueries cfg n).nheads = cfg.nheads ∧
      (setNumQueries cfg n).dropout_ratio = cfg.dropout_ratio ∧
      (setNumQueries cfg n).hidden_dim = cfg.hidden_dim ∧
      (setNumQueries cfg n).enc_layers = cfg.enc_layers ∧
      (setNumQueries cfg n).dec_layers = cfg.dec_layers ∧
      (setNumQueries cfg n).dim_feedforward = cfg.dim_feedforward ∧
      (setNumQueries cfg n).dec_n_points = cfg.dec_n_points ∧
      (setNumQueries cfg n).enc_n_points = cfg.enc_n_points ∧
      (setNumQueries cfg n).aux_loss = cfg.aux_loss ∧
      (setNumQueries cfg n).dilation = cfg.dilation ∧
      (setNumQueries cfg n).train_backbone = cfg.train_backbone ∧
      (setNumQueries cfg n).text_encoder_type = cfg.text_encoder_type ∧
      (setNumQueries cfg n).max_text_len = cfg.max_text_len ∧
      (setNumQueries cfg n).class_embed_bias = cfg.class_embed_bias ∧
      (setNumQueries cfg n).log_scale = cfg.log_scale ∧
      (setNumQueries cfg n).loss_types = cfg.loss_types ∧
      (setNumQueries cfg n).backbone_names = cfg.backbone_names ∧
      (setNumQueries cfg n).linear_proj_names = cfg.linear_proj_names :=
  fun _ _ =>
    ⟨rfl, rfl, rfl, rfl, rfl, rfl, rfl, rfl, rfl, rfl, rfl, rfl, rfl, rfl,
     rfl, rfl, rfl, rfl, rfl, rfl, rfl, rfl, rfl, rfl, rfl, rfl, rfl, rfl,
     rfl, rfl, rfl, rfl, rfl, rfl, rfl, rfl, rfl, rfl, rfl, rfl, rfl, rfl,
     rfl, rfl, rfl, rfl, rfl⟩

/-- C8: every field of GDINOModelConfig that declares both a finite minimum
and a finite maximum has well-formed bounds with valid_min at most
valid_max; in particular num_feature_levels declares 1 against 5 and
dropout_ratio declares 0.0 against 1.0, and the "inf" sentinel (as on
fix_refpoints_hw) is unbounded above. -/
theorem C8_declared_bounds_well_formed :
    (GDINOModelConfigFields.all fun p => boundsWellFormed p.2) = true ∧
    num_feature_levels.valid_min = NumBound.num 1 ∧
    num_feature_levels.valid_max = NumBound.num 5 ∧
    boundsWellFormed num_feature_levels = true ∧
    dropout_ratio.valid_min = NumBound.num 0 ∧
    dropout_ratio.valid_max = NumBound.num 1 ∧
    boundsWellFormed dropout_ratio = true ∧
    fix_refpoints_hw.valid_max = NumBound.inf := by
  decide

/-- C9: the fields of GDINOModelConfig marked automl_enabled "TRUE" are
exactly num_queries, num_select, enc_layers and dec_layers; each declares
valid_min 1, and of the four only num_queries declares a valid_max (the
"inf" sentinel) — the other three declare no upper bound at all. -/
theorem C9_automl_fields_and_their_bounds :
    ((GDINOModelConfigFields.filter fun p =>
        decide (p.2.automl_enabled = "TRUE")).map Prod.fst) =
      ["num_queries", "num_select", "enc_layers", "dec_layers"] ∧
    ((GDINOModelConfigFields.filter fun p =>
        decide (p.2.automl_enabled = "TRUE")).all fun p =>
        decide (p.2.valid_min = NumBound.num 1)) = true ∧
    num_queries.valid_max = NumBound.inf ∧
    num_select.valid_max = NumBound.unset ∧
    enc_layers.valid_max = NumBound.unset ∧
    dec_layers.valid_max = NumBound.unset := by
  decide

/-- C10: hidden_dim is the only field of GDINOModelConfig whose descriptor
carries no display_name: its builder call passes display_unit "hidden dim"
instead, and every other field of the schema declares a display_name. -/
theorem C10_hidden_dim_lacks_display_name :
    ((GDINOModelConfigFields.filter fun p =>
        decide (p.2.display_name = none)).map Prod.fst) = ["hidden_dim"] ∧
    hidden_dim.display_name = none ∧
    hidden_dim.display_unit = some "hidden dim" := by
  decide
